import Mathlib

/-!
Verification development for the multi-tenant warehouse-management system
(`main.py`): a shallow embedding of its tenant directory, tenant-store
provisioning, authentication and role-policy code, together with theorems
about the registration (`cadastrar_empresa`), login (`fazer_login`),
user-creation (`salvar_usuario`), user-deletion (`excluir_usuario`) and
schema-provisioning (`criar_banco_empresa`) operations.

Conventions of the embedding:
* SQLite tables are lists of records in rowid order; `SELECT ... fetchone()`
  is `List.find?`.
* The SHA-256 hex digest (`hashlib.sha256(s.encode()).hexdigest()`) is an
  explicit parameter `hashHex : String → String` of every operation that
  hashes; no claim depends on concrete digest values.
* File-system and database failures that the source handles with
  `try/except` (a locked store file, a failing insert) are injected through
  boolean flags in an `Env` record; `CURRENT_TIMESTAMP` is the `now` field.
* Error dialogs are modelled by error constructors; the spec's error names
  map as: DuplicateName = `empresaJaCadastrada`, CompanyNotFound =
  `empresaNaoEncontrada`, StoreMissing = `bancoNaoEncontrado`, UserNotFound =
  `usuarioNaoEncontrado`, InvalidCredential = `senhaIncorreta`, InvalidRole =
  `tipoAcessoInvalido`, InsufficientPrivilege = `semPermissao`,
  ProtectedAccount = `usuarioProtegido`.
-/

/-- Decidable equality of `Except` results, so that concrete runs of the
modelled operations can be settled by `decide`. -/
instance {ε α : Type} [DecidableEq ε] [DecidableEq α] : DecidableEq (Except ε α) :=
  fun a b =>
    match a, b with
    | .error e, .error f =>
      if h : e = f then .isTrue (congrArg Except.error h)
      else .isFalse (fun hc => h (Except.error.inj hc))
    | .error _, .ok _ => .isFalse (fun hc => Except.noConfusion hc)
    | .ok _, .error _ => .isFalse (fun hc => Except.noConfusion hc)
    | .ok x, .ok y =>
      if h : x = y then .isTrue (congrArg Except.ok h)
      else .isFalse (fun hc => h (Except.ok.inj hc))

namespace Deposito

/-- Python `\w` on ASCII input: letters, digits and underscore. -/
def isWordChar (c : Char) : Bool := c.isAlphanum || c = '_'

/-- `str.lower()` on ASCII input, computed structurally over the character
list so that concrete instances reduce in the kernel. -/
def toLowerStr (s : String) : String := ⟨s.data.map Char.toLower⟩

/-- `str.upper()` on ASCII input, computed structurally. -/
def toUpperStr (s : String) : String := ⟨s.data.map Char.toUpper⟩

/-- Python slicing `s[:n]`, computed structurally. -/
def takeStr (s : String) (n : Nat) : String := ⟨s.data.take n⟩

/-- `str.split(sep)` for a single-character separator, keeping empty parts,
computed structurally. -/
def splitAtChar (sep : Char) : List Char → List (List Char)
  | [] => [[]]
  | c :: cs =>
    let r := splitAtChar sep cs
    if c = sep then [] :: r
    else
      match r with
      | [] => [[c]]
      | h :: t => (c :: h) :: t

/-- `str.split(sep)` as a `String` operation. -/
def splitStr (sep : Char) (s : String) : List String :=
  (splitAtChar sep s.data).map (fun l => ⟨l⟩)

/-- Helper for `re.sub(r"\W+", "_", s)`: the flag records whether the
previous character belonged to a run of non-word characters already
replaced by an underscore. -/
def squashNonWordAux : Bool → List Char → List Char
  | _, [] => []
  | emRun, c :: cs =>
    if isWordChar c then c :: squashNonWordAux false cs
    else if emRun then squashNonWordAux true cs
    else '_' :: squashNonWordAux true cs

/-- `re.sub(r"\W+", "_", nome.lower())` (line 2313): lowercase the name and
replace every maximal run of non-word characters by one underscore. -/
def normalizar (s : String) : String := ⟨squashNonWordAux false (toLowerStr s).data⟩

/-- Lines 2313-2314: the store handle is the normalized name followed by an
underscore and the first 6 hex characters of the SHA-256 digest of the
(unmodified) display name. -/
def deriveDbNome (hashHex : String → String) (nome : String) : String :=
  normalizar nome ++ "_" ++ takeStr (hashHex nome) 6

/-- A row of the shared `empresas` table (columns used by the core; the
profile columns all default to the empty string). -/
structure Empresa where
  id : Nat
  nome : String
  senha : String
  logo_path : Option String
  db_nome : String
  admin_user : String
  cnpj : String
  endereco : String
  telefone : String
deriving DecidableEq

/-- A row of a tenant store's `usuarios` table. -/
structure Usuario where
  id : Nat
  codigo_empresa : String
  empresa_nome : String
  usuario : String
  nome_completo : String
  nome_supervisor : String
  turno : String
  email : String
  senha : String
  tipo_acesso : String
  departamento : Option String
  cargo : Option String
  data_admissao : Option String
  ultimo_acesso : Option String
  criado_por : Option String
deriving DecidableEq

/-- The contents of one tenant store file; only the `usuarios` table matters
to the claims (the other tables are pure CRUD). -/
structure DiskStore where
  usuarios : List Usuario
deriving DecidableEq

/-- Process-visible persistent state: the shared directory database plus the
tenant store files on disk, keyed by their `db_nome` handle. -/
structure SysState where
  empresas : List Empresa
  stores : List (String × DiskStore)
deriving DecidableEq

/-- `os.path.exists` plus opening the store: the store file at handle `h`. -/
def lookupStore (st : SysState) (h : String) : Option DiskStore :=
  (st.stores.find? (fun p => p.1 = h)).map (fun p => p.2)

/-- `os.remove` of the store file at handle `h`. -/
def removeStore (st : SysState) (h : String) : SysState :=
  { st with stores := st.stores.filter (fun p => p.1 ≠ h) }

/-- Creating (or replacing) the store file at handle `h` with contents `d`. -/
def setStore (st : SysState) (h : String) (d : DiskStore) : SysState :=
  { st with stores := (st.stores.filter (fun p => p.1 ≠ h)) ++ [(h, d)] }

/-- An in-place UPDATE of the existing store file at handle `h`. -/
def updateStore (st : SysState) (h : String) (d : DiskStore) : SysState :=
  { st with stores := st.stores.map (fun p => if p.1 = h then (h, d) else p) }

/-- AUTOINCREMENT id for the shared `empresas` table. -/
def nextEmpresaId (l : List Empresa) : Nat :=
  l.foldl (fun m e => max m e.id) 0 + 1

/-- AUTOINCREMENT id for a tenant `usuarios` table. -/
def nextUsuarioId (l : List Usuario) : Nat :=
  l.foldl (fun m u => max m u.id) 0 + 1

/-- Line 2303, `re.match(r'^[\w\s\-\.]+$', nome)`: characters allowed in a
company display name. -/
def isNomeChar (c : Char) : Bool :=
  isWordChar c || c.isWhitespace || c = '-' || c = '.'

/-- The company-name validation of line 2303 (anchored regex, so the name is
non-empty and every character is allowed). -/
def nomeEmpresaValido (s : String) : Bool :=
  s ≠ "" && s.data.all isNomeChar

/-- Characters allowed by `[\w\.-]` in the email regex of line 3313. -/
def isEmailChar (c : Char) : Bool := isWordChar c || c = '.' || c = '-'

/-- Domain part of the email regex `[\w\.-]+\.\w+$`: the part after the last
dot is a non-empty run of word characters and the part before it is a
non-empty run of `[\w\.-]` characters.  (Backtracking forces the split to
happen at the last dot, since `\w+` cannot contain a dot.) -/
def dominioValido (l : List Char) : Bool :=
  let r := l.reverse
  let tld := r.takeWhile (fun c => c ≠ '.')
  match r.dropWhile (fun c => c ≠ '.') with
  | [] => false
  | _ :: resto => !tld.isEmpty && tld.all isWordChar &&
      !resto.isEmpty && resto.all isEmailChar

/-- Line 3313, `re.match(r"^[\w\.-]+@[\w\.-]+\.\w+$", email)`.  `@` is not an
allowed character on either side, so the string must contain exactly one
`@`. -/
def emailValido (s : String) : Bool :=
  match splitStr '@' s with
  | [antes, depois] =>
      antes ≠ "" && antes.data.all isEmailChar && dominioValido depois.data
  | _ => false

/-- `self.logo_path.split('.')[-1]` (line 2344): the extension of a path. -/
def extensao (p : String) : String :=
  (splitStr '.' p).getLastD ""

/-- Lines 2342-2347: destination path of the copied logo, if one was chosen.
(The `os.replace` failure branch merely drops the logo with a warning and is
not claim-relevant.) -/
def logoFinal (nome : String) (logo : Option String) : Option String :=
  logo.map (fun p => "logos/" ++ "logo_" ++ nome ++ "." ++ extensao p)

/-- `nome.lower().replace(' ', '')` used to build the seeded CEO email. -/
def semEspacos (s : String) : String := ⟨s.data.filter (fun c => c ≠ ' ')⟩

/-- Environment of one operation: the wall clock (`CURRENT_TIMESTAMP` /
`DATE('now')`) and flags injecting the file-system and database failures the
source catches with `try/except`. -/
structure Env where
  now : String
  removeFails : Bool
  createFails : Bool
  seedFails : Bool
deriving DecidableEq

/-- Errors surfaced by `cadastrar_empresa` (each is one `messagebox` error
branch of lines 2291-2424). -/
inductive RegErro
  | camposVazios
  | nomeInvalido
  | senhaCurta
  | bancoEmUso
  | empresaJaCadastrada
  | falhaCriarBanco
  | falhaSeedCeo
deriving DecidableEq

/-- Inputs of company registration (the three entry fields and the optional
logo path). -/
structure RegInput where
  nome : String
  senha : String
  admin : String
  logo : Option String
deriving DecidableEq

/-- The CEO row inserted into a fresh tenant store (lines 2388-2400). -/
def mkCeoRow (env : Env) (hashHex : String → String)
    (db_nome nome admin senha : String) (idNovo : Nat) : Usuario :=
  { id := idNovo
    codigo_empresa := db_nome
    empresa_nome := nome
    usuario := admin
    nome_completo := admin
    nome_supervisor := "N/A"
    turno := "Integral"
    email := admin ++ "@" ++ semEspacos (toLowerStr nome) ++ ".com"
    senha := hashHex senha
    tipo_acesso := "CEO"
    departamento := some "Diretoria"
    cargo := some "CEO"
    data_admissao := some env.now
    ultimo_acesso := none
    criado_por := some "SISTEMA" }

/-- The directory row inserted by registration (lines 2351-2355): display
name, hashed secret, logo path, derived store handle and admin login; the
remaining profile columns take their SQL defaults. -/
def novaEmpresa (hashHex : String → String) (inp : RegInput)
    (empresas : List Empresa) : Empresa :=
  { id := nextEmpresaId empresas
    nome := inp.nome
    senha := hashHex inp.senha
    logo_path := logoFinal inp.nome inp.logo
    db_nome := deriveDbNome hashHex inp.nome
    admin_user := inp.admin
    cnpj := ""
    endereco := ""
    telefone := "" }

/-- Lines 2366-2410 of `cadastrar_empresa`: `criar_banco_empresa` (which
leaves a fresh store with an empty `usuarios` table at the handle) followed
by the CEO seed insert, starting from the directory state `st2` in which
the company row is already committed.  The seed insert is skipped if a user
with the admin login already exists (impossible in a fresh store).  Neither
failure branch rolls anything back. -/
def provisionarSemear (hashHex : String → String) (env : Env) (inp : RegInput)
    (db_nome : String) (st2 : SysState) : Except RegErro Unit × SysState :=
  if env.createFails then (.error .falhaCriarBanco, st2)
  else
    let st3 := setStore st2 db_nome ⟨[]⟩
    if env.seedFails then (.error .falhaSeedCeo, st3)
    else
      let store : DiskStore := ⟨[]⟩
      if store.usuarios.any (fun u => u.usuario = inp.admin) then (.ok (), st3)
      else
        (.ok (), setStore st3 db_nome
          ⟨store.usuarios ++ [mkCeoRow env hashHex db_nome inp.nome inp.admin
            inp.senha (nextUsuarioId store.usuarios)]⟩)

/-- Lines 2333-2364 of `cadastrar_empresa`: the duplicate-name check, the
insert (whose UNIQUE constraints on `nome` and `db_nome` surface as the
same "Empresa já cadastrada!" dialog) and the commit, then provisioning.
`st1` is the state after the store file at the handle was already removed. -/
def inserirEmpresa (hashHex : String → String) (env : Env) (inp : RegInput)
    (db_nome : String) (st1 : SysState) : Except RegErro Unit × SysState :=
  if st1.empresas.any (fun e => e.nome = inp.nome) then
    (.error .empresaJaCadastrada, st1)
  else if st1.empresas.any (fun e => e.db_nome = db_nome) then
    (.error .empresaJaCadastrada, st1)
  else
    provisionarSemear hashHex env inp db_nome
      { st1 with empresas := st1.empresas ++ [novaEmpresa hashHex inp st1.empresas] }

/-- `cadastrar_empresa` (lines 2291-2424, the effective definition — the
earlier method of the same name at line 2148 is shadowed by it).  Order of
operations in the source: field validation; name-character validation;
password length; derivation of `db_nome`; **removal of any existing store
file at that handle** (lines 2317-2326); duplicate-name check against the
directory (lines 2334-2337, i.e. after the removal); insert + commit of the
company row (the UNIQUE constraints on `nome` and `db_nome` surface as the
same "Empresa já cadastrada!" error); `criar_banco_empresa`, which leaves a
fresh store with an empty `usuarios` table; and the seed insert of the CEO
row (skipped if a user with that login already exists — impossible in a
fresh store).  None of the failure branches after the commit removes the
committed row or the created store file. -/
def cadastrar_empresa (hashHex : String → String) (env : Env) (inp : RegInput)
    (st : SysState) : Except RegErro Unit × SysState :=
  if inp.nome = "" ∨ inp.senha = "" ∨ inp.admin = "" then
    (.error .camposVazios, st)
  else if ¬ nomeEmpresaValido inp.nome then (.error .nomeInvalido, st)
  else if inp.senha.length < 6 then (.error .senhaCurta, st)
  else
    let db_nome := deriveDbNome hashHex inp.nome
    if (lookupStore st db_nome).isSome ∧ env.removeFails then
      (.error .bancoEmUso, st)
    else
      -- the conditional `os.remove` only touches the store files, so the
      -- post-removal state keeps `st.empresas` unchanged
      inserirEmpresa hashHex env inp db_nome
        { st with stores := if (lookupStore st db_nome).isSome
            then (removeStore st db_nome).stores else st.stores }

/-- Errors surfaced by `fazer_login` (lines 2443-2522).  When the user
lookup fails, the source shows a different dialog depending on whether the
`usuarios` table has any row at all (lines 2485-2503); the Boolean argument
of `usuarioNaoEncontrado` records that diagnostic. -/
inductive AuthErro
  | camposVazios
  | empresaNaoEncontrada
  | bancoNaoEncontrado
  | usuarioNaoEncontrado (tabelaTemLinhas : Bool)
  | senhaIncorreta
  | tipoAcessoInvalido
deriving DecidableEq

/-- The `self.empresa_logada` dictionary built on successful login (lines
2525-2535).  The dictionary has exactly the nine keys below; in particular
it has **no** `admin_user` key, so `empresa_logada.get("admin_user")`
returns `None` — modelled by the `admin_user : Option String` field, which
`fazer_login` always sets to `none`. -/
structure Session where
  id : Nat
  nome : String
  logo_path : Option String
  db_nome : String
  cnpj : String
  endereco : String
  telefone : String
  usuario : String
  tipo_acesso : String
  admin_user : Option String
deriving DecidableEq

/-- The three login entry fields: company name, secret and user identifier. -/
structure LoginInput where
  nome : String
  senha : String
  usuario : String
deriving DecidableEq

/-- The OR-lookup of line 2478-2481:
`usuario = ? OR nome_completo = ? OR email = ?`. -/
def loginMatch (ident : String) (u : Usuario) : Bool :=
  u.usuario = ident || u.nome_completo = ident || u.email = ident

/-- The role whitelist of line 2518 (compared against the uppercased stored
role). -/
def tiposValidos : List String := ["CEO", "ADMINISTRADOR", "GERENTE", "OPERADOR"]

/-- Lines 2525-2535: the session records the company data plus the matched
user's login name and role; no `admin_user` key is stored. -/
def mkSession (emp : Empresa) (u : Usuario) : Session :=
  { id := emp.id
    nome := emp.nome
    logo_path := emp.logo_path
    db_nome := emp.db_nome
    cnpj := emp.cnpj
    endereco := emp.endereco
    telefone := emp.telefone
    usuario := u.usuario
    tipo_acesso := u.tipo_acesso
    admin_user := none }

/-- Lines 2538-2541: `UPDATE usuarios SET ultimo_acesso = CURRENT_TIMESTAMP
WHERE id = ?`. -/
def stampUltimoAcesso (l : List Usuario) (uid : Nat) (now : String) : List Usuario :=
  l.map (fun v => if v.id = uid then { v with ultimo_acesso := some now } else v)

/-- `fazer_login` (lines 2426-2552): mandatory-field check, then company
lookup in the shared directory, existence of the tenant store file, user
lookup by the OR-match (first row wins), secret-hash comparison, role
whitelist (case-insensitive via `.upper()`), and on success the
`ultimo_acesso` stamp plus construction of the session. -/
def fazer_login (hashHex : String → String) (now : String) (inp : LoginInput)
    (st : SysState) : Except AuthErro Session × SysState :=
  if inp.nome = "" ∨ inp.senha = "" ∨ inp.usuario = "" then
    (.error .camposVazios, st)
  else
    match st.empresas.find? (fun e => e.nome = inp.nome) with
    | none => (.error .empresaNaoEncontrada, st)
    | some emp =>
      match lookupStore st emp.db_nome with
      | none => (.error .bancoNaoEncontrado, st)
      | some store =>
        match store.usuarios.find? (loginMatch inp.usuario) with
        | none => (.error (.usuarioNaoEncontrado (!store.usuarios.isEmpty)), st)
        | some u =>
          if u.senha ≠ hashHex inp.senha then (.error .senhaIncorreta, st)
          else if toUpperStr u.tipo_acesso ∉ tiposValidos then
            (.error .tipoAcessoInvalido, st)
          else
            (.ok (mkSession emp u),
             updateStore st emp.db_nome ⟨stampUltimoAcesso store.usuarios u.id now⟩)

/-- Errors surfaced by `salvar_usuario` (lines 3275-3386).  The two
permission dialogs of lines 3331-3336 are both `semPermissao`; a failing
`INSERT` (UNIQUE email or the CHECK constraint on `tipo_acesso`) raises
`sqlite3.IntegrityError`, reported as `integridade`. -/
inductive SaveErro
  | camposVazios
  | codigoEmpresaInvalido
  | emailInvalido
  | senhaCurta
  | semPermissao
  | integridade
deriving DecidableEq

/-- The user-form fields read at lines 3283-3293. -/
structure SaveInput where
  cod_empresa : String
  empresa_nome : String
  usuario : String
  nome : String
  supervisor : String
  turno : String
  email : String
  senha : String
  tipo : String
deriving DecidableEq

/-- The four enumerated roles of the `tipo_acesso` CHECK constraint
(line 369). -/
def tiposEnum : List String := ["CEO", "Administrador", "Gerente", "Operador"]

/-- Lines 3326-3328: the acting role used by the permission check is read
from the tenant row whose `usuario` column equals the logged-in **company's
display name** (`self.empresa_logada['nome']`), and defaults to `'CEO'`
when no such row exists. -/
def tipoAtual (store : DiskStore) (sess : Session) : String :=
  match store.usuarios.find? (fun u => u.usuario = sess.nome) with
  | some u => u.tipo_acesso
  | none => "CEO"

/-- The role-policy decision encoded by the two guards of lines 3331-3336:
an attempt is rejected when a non-CEO actor targets CEO or Administrador,
or when an actor below Administrador targets Gerente. -/
def permiteCriar (atual tipo : String) : Bool :=
  !((atual != "CEO") && (tipo == "CEO" || tipo == "Administrador")) &&
  !((atual != "CEO" && atual != "Administrador") && (tipo == "Gerente"))

/-- The row inserted by `salvar_usuario` (lines 3339-3366): `criado_por` is
the company name (line 3364); department, title, hire date and last access
are left NULL. -/
def novoUsuario (hashHex : String → String) (sess : Session) (inp : SaveInput)
    (store : DiskStore) : Usuario :=
  { id := nextUsuarioId store.usuarios
    codigo_empresa := inp.cod_empresa
    empresa_nome := inp.empresa_nome
    usuario := inp.usuario
    nome_completo := inp.nome
    nome_supervisor := inp.supervisor
    turno := inp.turno
    email := inp.email
    senha := hashHex inp.senha
    tipo_acesso := inp.tipo
    departamento := none
    cargo := none
    data_admissao := none
    ultimo_acesso := none
    criado_por := some sess.nome }

/-- `salvar_usuario` (lines 3275-3386): required-field check, the
"Empresa não encontrada!" sentinel check, email-format check, password
length, the two hierarchy guards based on `tipoAtual`, then the INSERT
(which the UNIQUE email and the role CHECK constraint can reject).
`criado_por` is set to the company name (line 3364). -/
def salvar_usuario (hashHex : String → String) (sess : Session) (inp : SaveInput)
    (store : DiskStore) : Except SaveErro Unit × DiskStore :=
  if inp.cod_empresa = "" ∨ inp.usuario = "" ∨ inp.nome = "" ∨ inp.supervisor = "" ∨
      inp.turno = "" ∨ inp.email = "" ∨ inp.senha = "" ∨ inp.tipo = "" then
    (.error .camposVazios, store)
  else if inp.empresa_nome = "Empresa não encontrada!" then
    (.error .codigoEmpresaInvalido, store)
  else if ¬ emailValido inp.email then (.error .emailInvalido, store)
  else if inp.senha.length < 6 then (.error .senhaCurta, store)
  else
    let atual := tipoAtual store sess
    if atual ≠ "CEO" ∧ (inp.tipo = "CEO" ∨ inp.tipo = "Administrador") then
      (.error .semPermissao, store)
    else if (atual ≠ "CEO" ∧ atual ≠ "Administrador") ∧ inp.tipo = "Gerente" then
      (.error .semPermissao, store)
    else if store.usuarios.any (fun u => u.email = inp.email) ∨ inp.tipo ∉ tiposEnum then
      (.error .integridade, store)
    else
      (.ok (), ⟨store.usuarios ++ [novoUsuario hashHex sess inp store]⟩)

/-- Errors surfaced by `excluir_usuario` (lines 3119-3147). -/
inductive DelErro
  | nenhumSelecionado
  | usuarioProtegido
deriving DecidableEq

/-- `excluir_usuario` (lines 3119-3147): empty-selection check; the
protected-account guard `usuario_atual == empresa_logada.get("admin_user")`
(a `None`-valued lookup under the session built by `fazer_login`); the
confirmation dialog (`confirmado = false` cancels without a change); and
the `DELETE FROM usuarios WHERE usuario = ?`.  No role check is performed. -/
def excluir_usuario (sess : Session) (usuario_atual : String) (confirmado : Bool)
    (store : DiskStore) : Except DelErro Unit × DiskStore :=
  if usuario_atual = "" then (.error .nenhumSelecionado, store)
  else if sess.admin_user = some usuario_atual then (.error .usuarioProtegido, store)
  else if ¬ confirmado then (.ok (), store)
  else (.ok (), ⟨store.usuarios.filter (fun u => u.usuario ≠ usuario_atual)⟩)

/-- States reachable from a fresh installation (empty directory, no store
files) by any sequence of registrations and logins, for one fixed hash
function. -/
inductive Alcancavel (hashHex : String → String) : SysState → Prop
  | inicial : Alcancavel hashHex ⟨[], []⟩
  | cadastro (env : Env) (inp : RegInput) (st : SysState) :
      Alcancavel hashHex st → Alcancavel hashHex (cadastrar_empresa hashHex env inp st).2
  | login (now : String) (inp : LoginInput) (st : SysState) :
      Alcancavel hashHex st → Alcancavel hashHex (fazer_login hashHex now inp st).2

/-- Directory invariant: pairwise-distinct display names and store handles. -/
def DirOk (st : SysState) : Prop :=
  st.empresas.Pairwise (fun e1 e2 => e1.nome ≠ e2.nome ∧ e1.db_nome ≠ e2.db_nome)

end Deposito

namespace Schema

/-- A SQLite table at schema granularity: the column names in order, and the
rows as value lists aligned with the columns.  Used to model the
`usuarios` DDL and additive migration of `criar_banco_empresa`. -/
structure Tabela where
  cols : List String
  rows : List (List String)
deriving DecidableEq

/-- One `ALTER TABLE usuarios ADD COLUMN c TEXT NOT NULL DEFAULT ''`
(lines 387-396): a no-op if the column exists, otherwise the column is
appended and every existing row gains the default value. -/
def addColunaDefault (t : Tabela) (c : String) : Tabela :=
  if c ∈ t.cols then t
  else ⟨t.cols ++ [c], t.rows.map (fun r => r ++ [""])⟩

/-- The columns the migration loop of lines 380-386 guarantees. -/
def colunasNecessarias : List String :=
  ["codigo_empresa", "empresa_nome", "usuario", "nome_supervisor", "turno"]

/-- The full `usuarios` column list of the CREATE TABLE at lines 357-378. -/
def usuariosCols : List String :=
  ["id", "codigo_empresa", "empresa_nome", "usuario", "nome_completo",
   "nome_supervisor", "turno", "email", "senha", "tipo_acesso",
   "departamento", "cargo", "data_admissao", "ultimo_acesso", "criado_por"]

/-- The additive-migration branch (lines 379-396). -/
def migrarUsuarios (t : Tabela) : Tabela :=
  colunasNecessarias.foldl addColunaDefault t

/-- The ensure step for the `usuarios` table (lines 351-396): create the
table if it is absent, otherwise add the missing columns. -/
def ensureUsuarios (existente : Option Tabela) : Tabela :=
  match existente with
  | none => ⟨usuariosCols, []⟩
  | some t => migrarUsuarios t

/-- `criar_banco_empresa` restricted to the `usuarios` table it provisions
(lines 315-397): the function first deletes any existing store file at the
handle (lines 317-324), then connects to a fresh file, so the ensure step
always runs with no pre-existing table — whatever was on disk, including
every row, is discarded. -/
def criar_banco_empresa_usuarios (_existente : Option Tabela) : Tabela :=
  ensureUsuarios none

end Schema

namespace Deposito

/-- Concrete stand-in digest function used by the concrete witnesses and
counterexamples below (injective on the few inputs used there; no statement
depends on actual SHA-256 values). -/
def hashFn (s : String) : String := "h" ++ s

/-- Environment with no injected file-system or database failures. -/
def envOk : Env :=
  { now := "T0", removeFails := false, createFails := false, seedFails := false }

/-- Registration input for the company "Acme" with admin login "boss". -/
def inpAcme : RegInput :=
  { nome := "Acme", senha := "secret1", admin := "boss", logo := none }

/-- A fresh installation: empty directory, no store files. -/
def st0 : SysState := ⟨[], []⟩

/-- The store handle derived for "Acme" under `hashFn`. -/
def dbAcme : String := deriveDbNome hashFn "Acme"

/-- The state after successfully registering "Acme". -/
def stAcme : SysState := (cadastrar_empresa hashFn envOk inpAcme st0).2

/-- A seeded CEO row whose login name coincides with the company name
"Acme", so that the acting role resolved by `tipoAtual` is read from a
genuine CEO row. -/
def ceoComoEmpresaRow : Usuario :=
  { id := 1
    codigo_empresa := dbAcme
    empresa_nome := "Acme"
    usuario := "Acme"
    nome_completo := "Acme Admin"
    nome_supervisor := "N/A"
    turno := "Integral"
    email := "acme@acme.com"
    senha := hashFn "secret1"
    tipo_acesso := "CEO"
    departamento := none
    cargo := none
    data_admissao := none
    ultimo_acesso := none
    criado_por := none }

/-- A session for "Acme" whose authenticated user is that CEO row. -/
def sessAcmeCeo : Session :=
  { id := 1
    nome := "Acme"
    logo_path := none
    db_nome := dbAcme
    cnpj := ""
    endereco := ""
    telefone := ""
    usuario := "Acme"
    tipo_acesso := "CEO"
    admin_user := none }

/-- A user-creation form requesting target role CEO. -/
def inpNovoCeo : SaveInput :=
  { cod_empresa := "1"
    empresa_nome := "Acme"
    usuario := "novo"
    nome := "Novo Chefe"
    supervisor := "Acme"
    turno := "Manhã"
    email := "novo@acme.com"
    senha := "abcdef"
    tipo := "CEO" }

/-- An Operator row whose login name coincides with the company name
"Beta". -/
def operadorComoEmpresaRow : Usuario :=
  { id := 1
    codigo_empresa := "beta_x"
    empresa_nome := "Beta"
    usuario := "Beta"
    nome_completo := "Beta Op"
    nome_supervisor := "N/A"
    turno := "Manhã"
    email := "op@beta.com"
    senha := hashFn "secret1"
    tipo_acesso := "Operador"
    departamento := none
    cargo := none
    data_admissao := none
    ultimo_acesso := none
    criado_por := none }

/-- A session for "Beta" whose authenticated user is that Operator row. -/
def sessBetaOp : Session :=
  { id := 1
    nome := "Beta"
    logo_path := none
    db_nome := "beta_x"
    cnpj := ""
    endereco := ""
    telefone := ""
    usuario := "Beta"
    tipo_acesso := "Operador"
    admin_user := none }

/-- A user-creation form requesting target role Gerente (manager). -/
def inpNovoGerente : SaveInput :=
  { cod_empresa := "1"
    empresa_nome := "Beta"
    usuario := "ger"
    nome := "Gerente Novo"
    supervisor := "Beta"
    turno := "Tarde"
    email := "ger@beta.com"
    senha := "abcdef"
    tipo := "Gerente" }

/-- An Operator row of the "Beta" tenant whose login name differs from the
company name. -/
def tedRow : Usuario :=
  { id := 1
    codigo_empresa := "beta_x"
    empresa_nome := "Beta"
    usuario := "ted"
    nome_completo := "Ted Op"
    nome_supervisor := "N/A"
    turno := "Noite"
    email := "ted@beta.com"
    senha := hashFn "secret1"
    tipo_acesso := "Operador"
    departamento := none
    cargo := none
    data_admissao := none
    ultimo_acesso := none
    criado_por := none }

/-- A user-creation form requesting target role CEO for the "Beta" tenant. -/
def inpNovoCeoBeta : SaveInput :=
  { cod_empresa := "1"
    empresa_nome := "Beta"
    usuario := "chefe"
    nome := "Chefe Novo"
    supervisor := "Beta"
    turno := "Manhã"
    email := "chefe@beta.com"
    senha := "abcdef"
    tipo := "CEO" }

/-- The directory row that registers "Acme" (as produced by
`cadastrar_empresa` on a fresh installation). -/
def empAcmeRow : Empresa :=
  { id := 1
    nome := "Acme"
    senha := hashFn "secret1"
    logo_path := none
    db_nome := dbAcme
    admin_user := "boss"
    cnpj := ""
    endereco := ""
    telefone := "" }

/-- The seeded tenant store of "Acme" right after registration. -/
def storeAcmeSeeded : DiskStore :=
  ⟨[mkCeoRow envOk hashFn dbAcme "Acme" "boss" "secret1" 1]⟩

/-- The result of the seeded admin "boss" logging into "Acme". -/
def afterLoginBoss : Except AuthErro Session × SysState :=
  fazer_login hashFn "T1" ⟨"Acme", "secret1", "boss"⟩ stAcme

end Deposito

open Deposito Schema

/-- C1: for every `fazer_login` call with non-empty company name, identifier
and secret, the checks run in the fixed order — company existence in the
shared directory, existence of the company's store on disk, user lookup by
the OR-match over login name / full name / email with the first match
winning, hash comparison of the input secret against the stored digest, and
membership of the (uppercased) stored role in the enumerated role set — the
first failing check short-circuits with its error
(`empresaNaoEncontrada`, `bancoNaoEncontrado`, `usuarioNaoEncontrado`,
`senhaIncorreta`, `tipoAcessoInvalido` respectively) leaving the state
unchanged, and if all checks pass the matched user's `ultimo_acesso` is
stamped and a session carrying the company data plus that user's login name
and role is returned. -/
theorem C1_fazer_login_ordem (hashHex : String → String) (now : String)
    (inp : LoginInput) (st : SysState)
    (hn : inp.nome ≠ "") (hs : inp.senha ≠ "") (hu : inp.usuario ≠ "") :
    (st.empresas.find? (fun e => e.nome = inp.nome) = none →
      fazer_login hashHex now inp st = (.error .empresaNaoEncontrada, st)) ∧
    (∀ emp, st.empresas.find? (fun e => e.nome = inp.nome) = some emp →
      lookupStore st emp.db_nome = none →
      fazer_login hashHex now inp st = (.error .bancoNaoEncontrado, st)) ∧
    (∀ emp store, st.empresas.find? (fun e => e.nome = inp.nome) = some emp →
      lookupStore st emp.db_nome = some store →
      store.usuarios.find? (loginMatch inp.usuario) = none →
      fazer_login hashHex now inp st =
        (.error (.usuarioNaoEncontrado (!store.usuarios.isEmpty)), st)) ∧
    (∀ emp store u, st.empresas.find? (fun e => e.nome = inp.nome) = some emp →
      lookupStore st emp.db_nome = some store →
      store.usuarios.find? (loginMatch inp.usuario) = some u →
      u.senha ≠ hashHex inp.senha →
      fazer_login hashHex now inp st = (.error .senhaIncorreta, st)) ∧
    (∀ emp store u, st.empresas.find? (fun e => e.nome = inp.nome) = some emp →
      lookupStore st emp.db_nome = some store →
      store.usuarios.find? (loginMatch inp.usuario) = some u →
      u.senha = hashHex inp.senha →
      toUpperStr u.tipo_acesso ∉ tiposValidos →
      fazer_login hashHex now inp st = (.error .tipoAcessoInvalido, st)) ∧
    (∀ emp store u, st.empresas.find? (fun e => e.nome = inp.nome) = some emp →
      lookupStore st emp.db_nome = some store →
      store.usuarios.find? (loginMatch inp.usuario) = some u →
      u.senha = hashHex inp.senha →
      toUpperStr u.tipo_acesso ∈ tiposValidos →
      fazer_login hashHex now inp st =
        (.ok (mkSession emp u),
         updateStore st emp.db_nome ⟨stampUltimoAcesso store.usuarios u.id now⟩) ∧
      (mkSession emp u).usuario = u.usuario ∧
      (mkSession emp u).tipo_acesso = u.tipo_acesso ∧
      ∀ v ∈ stampUltimoAcesso store.usuarios u.id now, v.id = u.id →
        v.ultimo_acesso = some now) := by
  have hcond : ¬ (inp.nome = "" ∨ inp.senha = "" ∨ inp.usuario = "") := by
    push_neg
    exact ⟨hn, hs, hu⟩
  refine ⟨?_, ?_, ?_, ?_, ?_, ?_⟩
  · intro h1
    simp only [fazer_login, if_neg hcond, h1]
  · intro emp h1 h2
    simp only [fazer_login, if_neg hcond, h1, h2]
  · intro emp store h1 h2 h3
    simp only [fazer_login, if_neg hcond, h1, h2, h3]
  · intro emp store u h1 h2 h3 h4
    simp only [fazer_login, if_neg hcond, h1, h2, h3, if_pos h4]
  · intro emp store u h1 h2 h3 h4 h5
    simp only [fazer_login, if_neg hcond, h1, h2, h3, h4, ne_eq, not_true_eq_false,
      if_false, if_pos h5]
  · intro emp store u h1 h2 h3 h4 h5
    refine ⟨?_, rfl, rfl, ?_⟩
    · simp only [fazer_login, if_neg hcond, h1, h2, h3, h4, ne_eq, not_true_eq_false,
        if_false, if_neg (show ¬ toUpperStr u.tipo_acesso ∉ tiposValidos from not_not_intro h5)]
    · intro v hv hvid
      simp only [stampUltimoAcesso, List.mem_map] at hv
      obtain ⟨w, hw, rfl⟩ := hv
      by_cases hw2 : w.id = u.id
      · simp [hw2]
      · simp only [if_neg hw2] at hvid ⊢
        exact absurd hvid hw2

/-- C1 witness: concrete application — logging in against a fresh
installation fails at the first check with `empresaNaoEncontrada`. -/
theorem C1_fazer_login_ordem_witness :
    fazer_login hashFn "T0" ⟨"Acme", "p", "u"⟩ ⟨[], []⟩ =
      (.error .empresaNaoEncontrada, ⟨[], []⟩) :=
  (C1_fazer_login_ordem hashFn "T0" ⟨"Acme", "p", "u"⟩ ⟨[], []⟩
    (by decide) (by decide) (by decide)).1 (by decide)

/-- The permission guards of lines 3331-3336 reject exactly when a non-CEO
actor targets CEO or Administrador, or an actor below Administrador targets
Gerente. -/
theorem permiteCriar_eq_false_iff (a t : String) :
    permiteCriar a t = false ↔
      (a ≠ "CEO" ∧ (t = "CEO" ∨ t = "Administrador")) ∨
      ((a ≠ "CEO" ∧ a ≠ "Administrador") ∧ t = "Gerente") := by
  simp [permiteCriar]
  tauto

/-- Complement of `permiteCriar_eq_false_iff`. -/
theorem permiteCriar_eq_true_iff (a t : String) :
    permiteCriar a t = true ↔
      ¬ (a ≠ "CEO" ∧ (t = "CEO" ∨ t = "Administrador")) ∧
      ¬ ((a ≠ "CEO" ∧ a ≠ "Administrador") ∧ t = "Gerente") := by
  simp [permiteCriar]
  tauto

/-- A CEO acting role passes the guards for every target role. -/
theorem permiteCriar_ceo (t : String) : permiteCriar "CEO" t = true := by
  simp [permiteCriar]

/-- When the input passes the field validations and the permission guards
reject, `salvar_usuario` fails with `semPermissao` and leaves the store
unchanged. -/
theorem salvar_usuario_semPermissao (hashHex : String → String) (sess : Session)
    (inp : SaveInput) (store : DiskStore)
    (hcampos : ¬ (inp.cod_empresa = "" ∨ inp.usuario = "" ∨ inp.nome = "" ∨
      inp.supervisor = "" ∨ inp.turno = "" ∨ inp.email = "" ∨ inp.senha = "" ∨
      inp.tipo = ""))
    (hsent : inp.empresa_nome ≠ "Empresa não encontrada!")
    (hemail : emailValido inp.email = true)
    (hsenha : ¬ inp.senha.length < 6)
    (hblock : permiteCriar (tipoAtual store sess) inp.tipo = false) :
    salvar_usuario hashHex sess inp store = (.error .semPermissao, store) := by
  rw [permiteCriar_eq_false_iff] at hblock
  rcases hblock with h | h
  · simp only [salvar_usuario, if_neg hcampos, if_neg hsent,
      if_neg (not_not_intro hemail), if_neg hsenha, if_pos h]
  · have hng : ¬ ((tipoAtual store sess ≠ "CEO") ∧
        (inp.tipo = "CEO" ∨ inp.tipo = "Administrador")) := by
      rintro ⟨-, hc | hc⟩ <;> simp [hc] at h
    simp only [salvar_usuario, if_neg hcampos, if_neg hsent,
      if_neg (not_not_intro hemail), if_neg hsenha, if_neg hng, if_pos h]

/-- When the input passes the field validations, the permission guards
allow, the email is fresh and the target role is enumerated,
`salvar_usuario` appends exactly the new row. -/
theorem salvar_usuario_insere (hashHex : String → String) (sess : Session)
    (inp : SaveInput) (store : DiskStore)
    (hcampos : ¬ (inp.cod_empresa = "" ∨ inp.usuario = "" ∨ inp.nome = "" ∨
      inp.supervisor = "" ∨ inp.turno = "" ∨ inp.email = "" ∨ inp.senha = "" ∨
      inp.tipo = ""))
    (hsent : inp.empresa_nome ≠ "Empresa não encontrada!")
    (hemail : emailValido inp.email = true)
    (hsenha : ¬ inp.senha.length < 6)
    (hok : permiteCriar (tipoAtual store sess) inp.tipo = true)
    (hfresh : store.usuarios.all (fun u => u.email ≠ inp.email) = true)
    (htipo : inp.tipo ∈ tiposEnum) :
    salvar_usuario hashHex sess inp store =
      (.ok (), ⟨store.usuarios ++ [novoUsuario hashHex sess inp store]⟩) := by
  rw [permiteCriar_eq_true_iff] at hok
  have hany : ¬ ((store.usuarios.any (fun u => u.email = inp.email)) = true ∨
      inp.tipo ∉ tiposEnum) := by
    rintro (hcontra | hcontra)
    · rw [List.any_eq_true] at hcontra
      obtain ⟨u, hu, he⟩ := hcontra
      have hne := List.all_eq_true.mp hfresh u hu
      simp only [decide_eq_true_eq] at he hne
      exact hne he
    · exact hcontra htipo
  simp only [salvar_usuario, if_neg hcampos, if_neg hsent,
    if_neg (not_not_intro hemail), if_neg hsenha, if_neg hok.1, if_neg hok.2,
    if_neg hany]

/-- C2 counterexample: the claim's table says a CEO may not create another
CEO (the attempt should fail with the insufficient-privilege error), but in
the code a call whose acting role resolves to CEO and whose target role is
CEO succeeds and inserts a second CEO row. -/
theorem C2_ceo_cria_ceo_counterexample :
    permiteCriar "CEO" "CEO" = true ∧
    tipoAtual ⟨[ceoComoEmpresaRow]⟩ sessAcmeCeo = "CEO" ∧
    (salvar_usuario hashFn sessAcmeCeo inpNovoCeo ⟨[ceoComoEmpresaRow]⟩).1 = .ok () ∧
    ((salvar_usuario hashFn sessAcmeCeo inpNovoCeo ⟨[ceoComoEmpresaRow]⟩).2.usuarios.filter
        (fun u => u.tipo_acesso = "CEO")).length = 2 := by
  decide

/-- C2 amended: the role policy applied by `salvar_usuario`, as a function
of the acting role it resolves (`tipoAtual`) and the target role, is: CEO
may create every role **including another CEO**; Administrador may create
Gerente or Operador only; Gerente and Operador may create Operador only.
Any rejected attempt fails with `semPermissao` without inserting a row; an
allowed attempt with a fresh email and an enumerated target role inserts
exactly the new row; in particular an Operador acting role targeting
Gerente is rejected while a CEO acting role performing the identical call
succeeds. -/
theorem C2_politica_hierarquia (hashHex : String → String) (sess : Session)
    (inp : SaveInput) (store : DiskStore)
    (hcampos : ¬ (inp.cod_empresa = "" ∨ inp.usuario = "" ∨ inp.nome = "" ∨
      inp.supervisor = "" ∨ inp.turno = "" ∨ inp.email = "" ∨ inp.senha = "" ∨
      inp.tipo = ""))
    (hsent : inp.empresa_nome ≠ "Empresa não encontrada!")
    (hemail : emailValido inp.email = true)
    (hsenha : ¬ inp.senha.length < 6) :
    (∀ atual ∈ tiposEnum, ∀ tipo ∈ tiposEnum,
      permiteCriar atual tipo =
        (atual == "CEO" || tipo == "Operador" ||
          (atual == "Administrador" && tipo == "Gerente"))) ∧
    permiteCriar "CEO" "CEO" = true ∧
    (permiteCriar (tipoAtual store sess) inp.tipo = false →
      salvar_usuario hashHex sess inp store = (.error .semPermissao, store)) ∧
    (permiteCriar (tipoAtual store sess) inp.tipo = true →
      store.usuarios.all (fun u => u.email ≠ inp.email) = true →
      inp.tipo ∈ tiposEnum →
      salvar_usuario hashHex sess inp store =
        (.ok (), ⟨store.usuarios ++ [novoUsuario hashHex sess inp store]⟩) ∧
      (novoUsuario hashHex sess inp store).tipo_acesso = inp.tipo) ∧
    (tipoAtual store sess = "Operador" → inp.tipo = "Gerente" →
      salvar_usuario hashHex sess inp store = (.error .semPermissao, store)) ∧
    (tipoAtual store sess = "CEO" →
      store.usuarios.all (fun u => u.email ≠ inp.email) = true →
      inp.tipo ∈ tiposEnum →
      (salvar_usuario hashHex sess inp store).1 = .ok ()) := by
  refine ⟨by decide, by decide, ?_, ?_, ?_, ?_⟩
  · exact fun h =>
      salvar_usuario_semPermissao hashHex sess inp store hcampos hsent hemail hsenha h
  · intro h1 h2 h3
    exact ⟨salvar_usuario_insere hashHex sess inp store hcampos hsent hemail hsenha
      h1 h2 h3, rfl⟩
  · intro hop htg
    refine salvar_usuario_semPermissao hashHex sess inp store hcampos hsent hemail hsenha ?_
    rw [permiteCriar_eq_false_iff]
    right
    simp [hop, htg]
  · intro hceo h2 h3
    rw [salvar_usuario_insere hashHex sess inp store hcampos hsent hemail hsenha
      (by rw [hceo]; exact permiteCriar_ceo inp.tipo) h2 h3]

/-- C2 witness: concrete application — an Operator acting role targeting
Gerente is rejected with `semPermissao` and the store is unchanged. -/
theorem C2_politica_hierarquia_witness :
    salvar_usuario hashFn sessBetaOp inpNovoGerente ⟨[operadorComoEmpresaRow]⟩ =
      (.error .semPermissao, ⟨[operadorComoEmpresaRow]⟩) :=
  (C2_politica_hierarquia hashFn sessBetaOp inpNovoGerente ⟨[operadorComoEmpresaRow]⟩
    (by decide) (by decide) (by decide) (by decide)).2.2.2.2.1 (by decide) (by decide)

/-- Reading back the store file just written at a handle yields exactly the
written contents. -/
theorem lookupStore_setStore_self (st : SysState) (h : String) (d : DiskStore) :
    lookupStore (setStore st h d) h = some d := by
  unfold lookupStore setStore
  have hnone : (st.stores.filter (fun p => p.1 ≠ h)).find? (fun p => p.1 = h) = none := by
    rw [List.find?_eq_none]
    intro x hx
    have hmem := List.of_mem_filter hx
    simp only [decide_eq_true_eq] at hmem ⊢
    exact hmem
  simp only [List.find?_append, hnone, Option.none_orElse]
  simp [List.find?]

/-- Provisioning and seeding never change the shared directory table. -/
theorem provisionarSemear_empresas (hashHex : String → String) (env : Env)
    (inp : RegInput) (db : String) (st2 : SysState) :
    (provisionarSemear hashHex env inp db st2).2.empresas = st2.empresas := by
  unfold provisionarSemear
  split_ifs <;> rfl

/-- When provisioning and seeding succeed, the result is exactly: a fresh
store written at the handle, then rewritten with the single seeded CEO
row. -/
theorem provisionarSemear_ok (hashHex : String → String) (env : Env)
    (inp : RegInput) (db : String) (st2 : SysState)
    (h : (provisionarSemear hashHex env inp db st2).1 = .ok ()) :
    provisionarSemear hashHex env inp db st2 =
      (.ok (), setStore (setStore st2 db ⟨[]⟩) db
        ⟨[mkCeoRow env hashHex db inp.nome inp.admin inp.senha 1]⟩) := by
  unfold provisionarSemear at h ⊢
  split_ifs at h ⊢
  all_goals rfl

/-- When the insert stage succeeds, both duplicate checks passed and the
result is provisioning applied to the state with the committed row. -/
theorem inserirEmpresa_ok (hashHex : String → String) (env : Env)
    (inp : RegInput) (db : String) (st1 : SysState)
    (h : (inserirEmpresa hashHex env inp db st1).1 = .ok ()) :
    inserirEmpresa hashHex env inp db st1 =
      provisionarSemear hashHex env inp db
        { st1 with empresas := st1.empresas ++ [novaEmpresa hashHex inp st1.empresas] } := by
  unfold inserirEmpresa at h ⊢
  split_ifs at h ⊢
  all_goals rfl

/-- The insert stage either leaves the directory unchanged, or appends
exactly the new row after verifying that no existing row shares its display
name or store handle. -/
theorem inserirEmpresa_empresas (hashHex : String → String) (env : Env)
    (inp : RegInput) (db : String) (st1 : SysState) :
    (inserirEmpresa hashHex env inp db st1).2.empresas = st1.empresas ∨
    ((inserirEmpresa hashHex env inp db st1).2.empresas =
        st1.empresas ++ [novaEmpresa hashHex inp st1.empresas] ∧
      (∀ e ∈ st1.empresas, e.nome ≠ inp.nome) ∧
      (∀ e ∈ st1.empresas, e.db_nome ≠ db)) := by
  unfold inserirEmpresa
  split_ifs with h1 h2
  · left; rfl
  · left; rfl
  · right
    refine ⟨provisionarSemear_empresas hashHex env inp db _, ?_, ?_⟩
    · intro e he heq
      exact h1 (List.any_eq_true.mpr ⟨e, he, by simp [heq]⟩)
    · intro e he heq
      exact h2 (List.any_eq_true.mpr ⟨e, he, by simp [heq]⟩)

/-- Registration either leaves the directory unchanged, or appends exactly
one new row whose display name and store handle were both fresh. -/
theorem cadastrar_empresa_empresas (hashHex : String → String) (env : Env)
    (inp : RegInput) (st : SysState) :
    (cadastrar_empresa hashHex env inp st).2.empresas = st.empresas ∨
    ((cadastrar_empresa hashHex env inp st).2.empresas =
        st.empresas ++ [novaEmpresa hashHex inp st.empresas] ∧
      (∀ e ∈ st.empresas, e.nome ≠ inp.nome) ∧
      (∀ e ∈ st.empresas, e.db_nome ≠ deriveDbNome hashHex inp.nome)) := by
  simp only [cadastrar_empresa]
  split_ifs <;>
    first
      | left; rfl
      | exact inserirEmpresa_empresas hashHex env inp _ _

/-- Login never changes the shared directory table. -/
theorem fazer_login_empresas (hashHex : String → String) (now : String)
    (inp : LoginInput) (st : SysState) :
    (fazer_login hashHex now inp st).2.empresas = st.empresas := by
  unfold fazer_login
  split
  · rfl
  split
  · rfl
  split
  · rfl
  split
  · rfl
  split_ifs <;> rfl

/-- C3 (code bug): registering the already-present name "Acme" a second
time fails with `empresaJaCadastrada` and adds no directory row — but the
existing tenant's store does not survive the rejected registration:
`cadastrar_empresa` removes the store file at the derived handle (lines
2317-2326) before the duplicate-name check of lines 2334-2337, destroying
the live store. -/
theorem C3_cadastro_duplicado_apaga_banco :
    (cadastrar_empresa hashFn envOk inpAcme st0).1 = .ok () ∧
    (lookupStore stAcme dbAcme).isSome = true ∧
    (cadastrar_empresa hashFn envOk inpAcme stAcme).1 = .error .empresaJaCadastrada ∧
    (cadastrar_empresa hashFn envOk inpAcme stAcme).2.empresas = stAcme.empresas ∧
    lookupStore (cadastrar_empresa hashFn envOk inpAcme stAcme).2 dbAcme = none := by
  decide

/-- C4 (code bug): when provisioning fails (here the CEO seed insert), the
company row — committed before provisioning at line 2355 — is not rolled
back and the schema-only (user-less) store file remains on disk: the
failed registration is not atomic. -/
theorem C4_provisionamento_sem_rollback :
    (cadastrar_empresa hashFn
        { now := "T0", removeFails := false, createFails := false, seedFails := true }
        inpAcme st0).1 = .error .falhaSeedCeo ∧
    ((cadastrar_empresa hashFn
        { now := "T0", removeFails := false, createFails := false, seedFails := true }
        inpAcme st0).2.empresas.map (fun e => e.nome)) = ["Acme"] ∧
    lookupStore (cadastrar_empresa hashFn
        { now := "T0", removeFails := false, createFails := false, seedFails := true }
        inpAcme st0).2 dbAcme = some ⟨[]⟩ := by
  decide

/-- C5: immediately after every successful registration, the new tenant
store contains exactly one user row; it has role CEO, carries the
registering admin's login and the same secret hash supplied at
registration, and every role stored in the table belongs to the enumerated
role set. -/
theorem C5_seed_ceo_unico (hashHex : String → String) (env : Env) (inp : RegInput)
    (st : SysState) (h : (cadastrar_empresa hashHex env inp st).1 = .ok ()) :
    ∃ store : DiskStore,
      lookupStore (cadastrar_empresa hashHex env inp st).2
        (deriveDbNome hashHex inp.nome) = some store ∧
      store.usuarios = [mkCeoRow env hashHex (deriveDbNome hashHex inp.nome) inp.nome
        inp.admin inp.senha 1] ∧
      (store.usuarios.filter (fun v => v.tipo_acesso = "CEO")).length = 1 ∧
      (∀ v ∈ store.usuarios,
        v.usuario = inp.admin ∧ v.senha = hashHex inp.senha ∧ v.tipo_acesso = "CEO") ∧
      (∀ v ∈ store.usuarios, v.tipo_acesso ∈ tiposEnum) := by
  simp only [cadastrar_empresa] at h ⊢
  split_ifs at h ⊢ <;>
    first
      | exact absurd h (by simp)
      | (have hins := inserirEmpresa_ok _ _ _ _ _ h
         rw [hins] at h ⊢
         rw [provisionarSemear_ok _ _ _ _ _ h]
         exact ⟨_, lookupStore_setStore_self _ _ _, rfl,
           by simp [mkCeoRow], by simp [mkCeoRow], by simp [mkCeoRow, tiposEnum]⟩)

/-- C5 witness: concrete application to the successful registration of
"Acme". -/
theorem C5_seed_ceo_unico_witness :
    ∃ store : DiskStore,
      lookupStore (cadastrar_empresa hashFn envOk inpAcme st0).2
        (deriveDbNome hashFn inpAcme.nome) = some store ∧
      store.usuarios = [mkCeoRow envOk hashFn (deriveDbNome hashFn inpAcme.nome)
        inpAcme.nome inpAcme.admin inpAcme.senha 1] ∧
      (store.usuarios.filter (fun v => v.tipo_acesso = "CEO")).length = 1 ∧
      (∀ v ∈ store.usuarios,
        v.usuario = inpAcme.admin ∧ v.senha = hashFn inpAcme.senha ∧
          v.tipo_acesso = "CEO") ∧
      (∀ v ∈ store.usuarios, v.tipo_acesso ∈ tiposEnum) :=
  C5_seed_ceo_unico hashFn envOk inpAcme st0 (by decide)

/-- C6 (code bug): the session dictionary built by `fazer_login` has no
`admin_user` key, so the protected-account guard of `excluir_usuario`
compares the selected login against `None` and never fires — deleting the
seeded admin "boss" (the `admin_user` recorded in the directory row at
registration) succeeds and removes the row, instead of failing with
`usuarioProtegido`; no role-dominance check is applied either. -/
theorem C6_admin_excluivel :
    ∃ sess store,
      afterLoginBoss.1 = .ok sess ∧
      lookupStore afterLoginBoss.2 dbAcme = some store ∧
      sess.admin_user = none ∧
      stAcme.empresas.map (fun e => e.admin_user) = ["boss"] ∧
      store.usuarios.any (fun u => u.usuario = "boss") = true ∧
      excluir_usuario sess "boss" true store =
        (.ok (), ⟨store.usuarios.filter (fun u => u.usuario ≠ "boss")⟩) ∧
      (excluir_usuario sess "boss" true store).2.usuarios.any
        (fun u => u.usuario = "boss") = false :=
  ⟨_, _, rfl, rfl, rfl, rfl, rfl, rfl, rfl⟩

/-- C7 counterexample: the claim says a failed user lookup and a failed
secret comparison produce the same generic invalid-credential outcome, but
the code reports the two failures with observably different errors
("Usuário não encontrado!" vs "Senha incorreta!"): here the same store
yields `usuarioNaoEncontrado` for an unknown identifier and `senhaIncorreta`
for a known identifier with a wrong secret. -/
theorem C7_mesma_resposta_counterexample :
    (fazer_login hashFn "T1" ⟨"Acme", "secret1", "zoe"⟩ stAcme).1 =
      .error (.usuarioNaoEncontrado true) ∧
    (fazer_login hashFn "T1" ⟨"Acme", "wrongpw", "boss"⟩ stAcme).1 =
      .error .senhaIncorreta ∧
    AuthErro.usuarioNaoEncontrado true ≠ AuthErro.senhaIncorreta := by
  decide

/-- C7 amended: the two failures are observably distinct — whenever the
user lookup fails the result is the `usuarioNaoEncontrado` error, whenever
the user exists but the secret hash mismatches the result is the
`senhaIncorreta` error, and these errors are never equal, so the response
does reveal whether the user existed. -/
theorem C7_passos_3_e_4_distinguiveis (hashHex : String → String) (now : String)
    (inp : LoginInput) (st : SysState)
    (hn : inp.nome ≠ "") (hs : inp.senha ≠ "") (hu : inp.usuario ≠ "") :
    (∀ emp store, st.empresas.find? (fun e => e.nome = inp.nome) = some emp →
      lookupStore st emp.db_nome = some store →
      store.usuarios.find? (loginMatch inp.usuario) = none →
      (fazer_login hashHex now inp st).1 =
        .error (.usuarioNaoEncontrado (!store.usuarios.isEmpty))) ∧
    (∀ emp store u, st.empresas.find? (fun e => e.nome = inp.nome) = some emp →
      lookupStore st emp.db_nome = some store →
      store.usuarios.find? (loginMatch inp.usuario) = some u →
      u.senha ≠ hashHex inp.senha →
      (fazer_login hashHex now inp st).1 = .error .senhaIncorreta) ∧
    (∀ b, AuthErro.usuarioNaoEncontrado b ≠ .senhaIncorreta) := by
  have hcond : ¬ (inp.nome = "" ∨ inp.senha = "" ∨ inp.usuario = "") := by
    push_neg
    exact ⟨hn, hs, hu⟩
  refine ⟨?_, ?_, fun b => by simp⟩
  · intro emp store h1 h2 h3
    simp only [fazer_login, if_neg hcond, h1, h2, h3]
  · intro emp store u h1 h2 h3 h4
    simp only [fazer_login, if_neg hcond, h1, h2, h3, if_pos h4]

/-- C7 witness: concrete application of the amended statement to the seeded
"Acme" store. -/
theorem C7_passos_3_e_4_distinguiveis_witness :
    (fazer_login hashFn "T2" ⟨"Acme", "abc", "nobody"⟩ stAcme).1 =
      .error (.usuarioNaoEncontrado (!storeAcmeSeeded.usuarios.isEmpty)) :=
  (C7_passos_3_e_4_distinguiveis hashFn "T2" ⟨"Acme", "abc", "nobody"⟩ stAcme
    (by decide) (by decide) (by decide)).1 empAcmeRow storeAcmeSeeded
    (by decide) (by decide) (by decide)

/-- C8: the store-handle derivation is a deterministic function of the
display name alone, of the shape `normalizar nome ++ "_" ++` the first six
characters of the hash of the name; and in every state reachable by
registrations and logins from a fresh installation the directory's display
names and store handles are pairwise distinct — in particular any two
registered rows with distinct display names carry distinct store handles. -/
theorem C8_db_nome_unico (hashHex : String → String) (st : SysState)
    (h : Alcancavel hashHex st) :
    (∀ nome, deriveDbNome hashHex nome =
      normalizar nome ++ "_" ++ takeStr (hashHex nome) 6) ∧
    DirOk st ∧
    (∀ e1 ∈ st.empresas, ∀ e2 ∈ st.empresas, e1.nome ≠ e2.nome →
      e1.db_nome ≠ e2.db_nome) := by
  have hdir : DirOk st := by
    induction h with
    | inicial => exact List.Pairwise.nil
    | cadastro env inp st' _ ih =>
      unfold DirOk at ih ⊢
      rcases cadastrar_empresa_empresas hashHex env inp st' with heq | ⟨heq, hn, hd⟩
      · rw [heq]
        exact ih
      · rw [heq]
        refine List.pairwise_append.mpr ⟨ih, List.pairwise_singleton _ _, ?_⟩
        intro e1 he1 e2 he2
        simp only [List.mem_singleton] at he2
        subst he2
        exact ⟨hn e1 he1, hd e1 he1⟩
    | login now inp st' _ ih =>
      unfold DirOk at ih ⊢
      rw [fazer_login_empresas]
      exact ih
  refine ⟨fun _ => rfl, hdir, ?_⟩
  intro e1 he1 e2 he2 hne
  by_cases heq : e1 = e2
  · exact absurd (congrArg Empresa.nome heq) hne
  · exact (List.Pairwise.forall
      (fun a b hab => ⟨fun hx => hab.1 hx.symm, fun hx => hab.2 hx.symm⟩)
      hdir he1 he2 heq).2

/-- C8 witness: concrete application — after registering "Acme" and then
"Beta" from a fresh installation, the directory invariant holds. -/
theorem C8_db_nome_unico_witness :
    DirOk (cadastrar_empresa hashFn envOk
      { nome := "Beta", senha := "secret2", admin := "eve", logo := none }
      (cadastrar_empresa hashFn envOk inpAcme ⟨[], []⟩).2).2 :=
  (C8_db_nome_unico hashFn _
    (.cadastro envOk _ _ (.cadastro envOk inpAcme ⟨[], []⟩ .inicial))).2.1

namespace Schema

/-- Folding the add-column migration appends some (possibly empty) list of
new columns and pads every existing row with the default value, leaving the
original columns and row values untouched. -/
theorem foldl_addColuna_shape (L : List String) :
    ∀ t : Tabela, ∃ extra : List String,
      (L.foldl addColunaDefault t).cols = t.cols ++ extra ∧
      (L.foldl addColunaDefault t).rows =
        t.rows.map (fun r => r ++ List.replicate extra.length "") := by
  induction L with
  | nil =>
    intro t
    exact ⟨[], by simp, by simp⟩
  | cons c L ih =>
    intro t
    simp only [List.foldl_cons]
    by_cases hc : c ∈ t.cols
    · have hstep : addColunaDefault t c = t := by
        rw [addColunaDefault, if_pos hc]
      rw [hstep]
      exact ih t
    · have hstep : addColunaDefault t c =
          ⟨t.cols ++ [c], t.rows.map (fun r => r ++ [""])⟩ := by
        rw [addColunaDefault, if_neg hc]
      obtain ⟨extra, h1, h2⟩ := ih (addColunaDefault t c)
      refine ⟨c :: extra, ?_, ?_⟩
      · rw [h1, hstep]
        simp
      · rw [h2, hstep]
        simp only [List.map_map]
        have hrow : ∀ r : List String,
            (r ++ [""]) ++ List.replicate extra.length "" =
              r ++ List.replicate (c :: extra).length "" := by
          intro r
          simp [List.replicate_succ, List.append_assoc]
        exact List.map_congr_left (fun r _ => hrow r)

/-- Adding one column preserves every existing column. -/
theorem mem_cols_addColuna {t : Tabela} {a : String} (c : String) (h : a ∈ t.cols) :
    a ∈ (addColunaDefault t c).cols := by
  unfold addColunaDefault
  split_ifs
  · exact h
  · exact List.mem_append_left _ h

/-- After adding a column, it is present. -/
theorem self_mem_cols_addColuna (t : Tabela) (c : String) :
    c ∈ (addColunaDefault t c).cols := by
  unfold addColunaDefault
  split_ifs with h
  · exact h
  · simp

/-- Adding an already-present column is a no-op. -/
theorem addColuna_eq_of_mem {t : Tabela} {c : String} (h : c ∈ t.cols) :
    addColunaDefault t c = t := by
  unfold addColunaDefault
  rw [if_pos h]

/-- The migration fold never removes a column. -/
theorem foldl_preserves_mem (L : List String) :
    ∀ (t : Tabela) (a : String), a ∈ t.cols → a ∈ (L.foldl addColunaDefault t).cols := by
  induction L with
  | nil => exact fun _ _ h => h
  | cons c L ih =>
    intro t a h
    simp only [List.foldl_cons]
    exact ih _ a (mem_cols_addColuna c h)

/-- After the migration fold every required column is present. -/
theorem foldl_adds (L : List String) :
    ∀ t : Tabela, ∀ c ∈ L, c ∈ (L.foldl addColunaDefault t).cols := by
  induction L with
  | nil =>
    intro t c hc
    cases hc
  | cons d L ih =>
    intro t c hc
    simp only [List.foldl_cons]
    rcases List.mem_cons.mp hc with rfl | hc
    · exact foldl_preserves_mem L _ c (self_mem_cols_addColuna t c)
    · exact ih _ c hc

/-- The migration fold is the identity when every required column is
already present. -/
theorem foldl_noop (L : List String) :
    ∀ t : Tabela, (∀ c ∈ L, c ∈ t.cols) → L.foldl addColunaDefault t = t := by
  induction L with
  | nil => exact fun _ _ => rfl
  | cons c L ih =>
    intro t h
    simp only [List.foldl_cons]
    rw [addColuna_eq_of_mem (h c (List.mem_cons_self c L))]
    exact ih t (fun d hd => h d (List.mem_cons_of_mem c hd))

/-- The `usuarios` migration is idempotent. -/
theorem migrar_idem (t : Tabela) :
    migrarUsuarios (migrarUsuarios t) = migrarUsuarios t :=
  foldl_noop colunasNecessarias _ (fun c hc => foldl_adds colunasNecessarias t c hc)

end Schema

/-- C9 counterexample: the claim says running the schema-ensure operation
(`criar_banco_empresa`) twice in a row is a no-op the second time and never
deletes existing rows; but the operation removes the existing store file
before rebuilding, so a store holding one row comes back empty — every row
is deleted and the result differs from the input. -/
theorem C9_reexecucao_counterexample :
    (criar_banco_empresa_usuarios
        (some ⟨(criar_banco_empresa_usuarios none).cols,
          [List.replicate usuariosCols.length "x"]⟩)).rows = [] ∧
    ¬ criar_banco_empresa_usuarios
        (some ⟨(criar_banco_empresa_usuarios none).cols,
          [List.replicate usuariosCols.length "x"]⟩) =
      ⟨(criar_banco_empresa_usuarios none).cols,
        [List.replicate usuariosCols.length "x"]⟩ := by
  decide

/-- C9 amended: `criar_banco_empresa` deletes any existing store file
before recreating the schema, so its second run on a populated store
returns an empty table rather than being a no-op; the schema-ensure portion
alone (`ensureUsuarios`, i.e. CREATE TABLE if absent plus the add-missing-
column migration), run without the file deletion, is idempotent and
additive-only: it only appends missing columns with the default value,
never dropping or renaming existing columns and leaving every existing row
value unchanged. -/
theorem C9_migracao_aditiva (t : Tabela) :
    (criar_banco_empresa_usuarios (some t)).rows = [] ∧
    ensureUsuarios (some (ensureUsuarios (some t))) = ensureUsuarios (some t) ∧
    ∃ extra : List String,
      (migrarUsuarios t).cols = t.cols ++ extra ∧
      (migrarUsuarios t).rows =
        t.rows.map (fun r => r ++ List.replicate extra.length "") :=
  ⟨rfl, migrar_idem t, foldl_addColuna_shape colunasNecessarias t⟩

/-- C9 witness: concrete application of the amended statement to a one-row
table carrying only the original schema columns. -/
theorem C9_migracao_aditiva_witness :
    (criar_banco_empresa_usuarios
      (some ⟨["id", "usuario"], [["1", "ana"]]⟩)).rows = [] ∧
    ensureUsuarios (some (ensureUsuarios (some ⟨["id", "usuario"], [["1", "ana"]]⟩))) =
      ensureUsuarios (some ⟨["id", "usuario"], [["1", "ana"]]⟩) ∧
    ∃ extra : List String,
      (migrarUsuarios ⟨["id", "usuario"], [["1", "ana"]]⟩).cols =
        ["id", "usuario"] ++ extra ∧
      (migrarUsuarios ⟨["id", "usuario"], [["1", "ana"]]⟩).rows =
        [["1", "ana"]].map (fun r => r ++ List.replicate extra.length "") :=
  C9_migracao_aditiva ⟨["id", "usuario"], [["1", "ana"]]⟩

/-- C10: the acting role used by `salvar_usuario`'s permission check is
read from the tenant row whose login equals the session's **company name**
(`tipoAtual`), defaulting to CEO when no row matches; consequently, for any
session whose company name matches no login in the table, a user of every
enumerated target role — including CEO and Administrador — can be created
regardless of the session's own role. -/
theorem C10_papel_do_nome_da_empresa (hashHex : String → String) (sess : Session)
    (inp : SaveInput) (store : DiskStore)
    (hcampos : ¬ (inp.cod_empresa = "" ∨ inp.usuario = "" ∨ inp.nome = "" ∨
      inp.supervisor = "" ∨ inp.turno = "" ∨ inp.email = "" ∨ inp.senha = "" ∨
      inp.tipo = ""))
    (hsent : inp.empresa_nome ≠ "Empresa não encontrada!")
    (hemail : emailValido inp.email = true)
    (hsenha : ¬ inp.senha.length < 6)
    (hfind : store.usuarios.find? (fun u => u.usuario = sess.nome) = none)
    (hfresh : store.usuarios.all (fun u => u.email ≠ inp.email) = true)
    (htipo : inp.tipo ∈ tiposEnum) :
    (∀ (st' : DiskStore) (sess' : Session) (u : Usuario),
      st'.usuarios.find? (fun v => v.usuario = sess'.nome) = some u →
      tipoAtual st' sess' = u.tipo_acesso) ∧
    tipoAtual store sess = "CEO" ∧
    salvar_usuario hashHex sess inp store =
      (.ok (), ⟨store.usuarios ++ [novoUsuario hashHex sess inp store]⟩) ∧
    (novoUsuario hashHex sess inp store).tipo_acesso = inp.tipo := by
  have hatual : tipoAtual store sess = "CEO" := by
    unfold tipoAtual
    rw [hfind]
  refine ⟨?_, hatual, ?_, rfl⟩
  · intro st' sess' u hu
    unfold tipoAtual
    rw [hu]
  · exact salvar_usuario_insere hashHex sess inp store hcampos hsent hemail hsenha
      (by rw [hatual]; exact permiteCriar_ceo inp.tipo) hfresh htipo

/-- C10 witness: concrete application — a session whose own role is
Operador, against a store in which no login equals the company name,
successfully creates a user with role CEO. -/
theorem C10_papel_do_nome_da_empresa_witness :
    salvar_usuario hashFn sessBetaOp inpNovoCeoBeta ⟨[tedRow]⟩ =
      (.ok (), ⟨[tedRow] ++ [novoUsuario hashFn sessBetaOp inpNovoCeoBeta ⟨[tedRow]⟩]⟩) :=
  (C10_papel_do_nome_da_empresa hashFn sessBetaOp inpNovoCeoBeta ⟨[tedRow]⟩
    (by decide) (by decide) (by decide) (by decide) (by decide) (by decide)
    (by decide)).2.2.1
